import Mathlib

/-!
Shallow embedding of `difyDslGenCheck.py`: a generate → check → ask-operator
loop built on a LangGraph `StateGraph`.  Pure Lean functions model the three
node functions (`generate_workflow`, `check_workflow`, `ask_operator`), the
partial-update merge semantics of the graph state, and the compiled graph's
execution loop.  External collaborators (the LLM client and the operator
console) are modelled as explicit scripts of responses.
-/

namespace Dify

/-- Python `str.lower` restricted to the character list (ASCII case folding,
which is all the recognized tokens need). -/
def pyLower (s : String) : String := String.mk (s.data.map Char.toLower)

/-- Boolean substring containment on character lists; models Python's
`pat in s`. -/
def containsSub (pat : List Char) : List Char → Bool
  | [] => pat.isEmpty
  | c :: rest => (pat.isPrefixOf (c :: rest)) || containsSub pat rest

/-- The check `"maximum context length" in str(e)` from
`_get_complete_answer`'s except clause. -/
def isTruncation (e : String) : Bool :=
  containsSub "maximum context length".toList e.toList

/-- The fixed role string built in `generate_workflow`
(`role = "あなたは..."`). -/
def role : String := "あなたはDifyのワークフローを生成するエキスパートです。"

/-- One client response to a `chain.invoke` call: either returned text or a
raised exception, identified by its `str(e)`. -/
inductive ClientResult where
  | ok (text : String)
  | exn (msg : String)
deriving DecidableEq

/-- Outcome of `_get_complete_answer` on a finite script of client results:
normal return, a re-raised exception, or the script ran out while the
`while True:` loop would keep retrying. -/
inductive GenOutcome where
  | done (answer : String)
  | raised (e : String)
  | hang
deriving DecidableEq

/-- The dict passed to `chain.invoke` inside `_get_complete_answer`. -/
structure InvokePayload where
  role : String
  role_details : String
  query : String
  judgement_reason : String
deriving DecidableEq

/-- Builds the invoke payload exactly as the source does:
`query + ("\n既存の回答:" + answer if answer else "")`. -/
def mkPayload (roleDetails query answer judgementReason : String) : InvokePayload :=
  { role := role
    role_details := roleDetails
    query := query ++ (if answer = "" then "" else "\n既存の回答:" ++ answer)
    judgement_reason := judgementReason }

/-- The loop body of `_get_complete_answer`, run against a finite script of
client results.  Mirrors the source: on success the current answer is
appended and the loop breaks; on an exception whose text contains
"maximum context length" the loop retries with `answer` unchanged (the
exception carries no text, so nothing is accumulated); any other exception
is re-raised.  Also records the payload of every issued call. -/
def getCompleteAnswerAux (roleDetails query judgementReason : String) :
    List ClientResult → String → GenOutcome × List InvokePayload
  | [], _ => (.hang, [])
  | r :: rest, answer =>
    let p := mkPayload roleDetails query answer judgementReason
    match r with
    | .ok t => (.done (answer ++ t), [p])
    | .exn e =>
      if isTruncation e then
        let res := getCompleteAnswerAux roleDetails query judgementReason rest answer
        (res.1, p :: res.2)
      else (.raised e, [p])

/-- `_get_complete_answer(chain, role, role_details, query, judgement_reason)`:
the loop starting from `answer = ""`. -/
def getCompleteAnswer (roleDetails query judgementReason : String)
    (script : List ClientResult) : GenOutcome × List InvokePayload :=
  getCompleteAnswerAux roleDetails query judgementReason script ""

/-- The literal text sitting between `{query}` and `{judgement_reason}` in the
feedback variant of the generation prompt template (after `.strip()`). -/
def feedbackBlock : String :=
  "\n                前回の生成で以下の問題が検出されました、修正して下さい：\n                "

/-- Renders the generation prompt for one invoke call.  The template is chosen
by the truthiness of the judgement reason, exactly as `generate_workflow`
does: `"{role_details}{query}"` when it is empty, and the feedback variant
otherwise.  Note the template has no `{role}` placeholder, so the payload's
`role` field is never substituted. -/
def renderGenPrompt (p : InvokePayload) : String :=
  if p.judgement_reason = "" then p.role_details ++ p.query
  else p.role_details ++ p.query ++ feedbackBlock ++ p.judgement_reason

/-- The pydantic `State` model threaded through the graph. -/
structure State where
  query : String
  messages : List String
  current_judge : Bool
  judgement_reason : String
  operator_approved : Bool
deriving DecidableEq

/-- The structured `Judgement` model returned by the checking chain. -/
structure Judgement where
  reason : String
  judge : Bool
deriving DecidableEq

/-- A node's returned partial update (the Python dict): `none` means the key
is absent from the returned dict. -/
structure StateUpdate where
  query : Option String
  messages : Option (List String)
  current_judge : Option Bool
  judgement_reason : Option String
  operator_approved : Option Bool
deriving DecidableEq

/-- The empty update (a node returning `{}`). -/
def StateUpdate.empty : StateUpdate := ⟨none, none, none, none, none⟩

/-- LangGraph's merge of a node's partial update into the state: `messages`
is annotated with `operator.add` so new entries are appended; every other
present key overwrites the field. -/
def applyUpdate (s : State) (u : StateUpdate) : State :=
  { query := u.query.getD s.query
    messages := s.messages ++ u.messages.getD []
    current_judge := u.current_judge.getD s.current_judge
    judgement_reason := u.judgement_reason.getD s.judgement_reason
    operator_approved := u.operator_approved.getD s.operator_approved }

/-- The dict returned by `generate_workflow`: `{"messages": [answer]}`. -/
def genUpdate (answer : String) : StateUpdate :=
  { StateUpdate.empty with messages := some [answer] }

/-- The dict returned by `check_workflow`:
`{"current_judge": result.judge, "judgement_reason": result.reason}`. -/
def checkUpdate (j : Judgement) : StateUpdate :=
  { StateUpdate.empty with
      current_judge := some j.judge
      judgement_reason := some j.reason }

/-- The dict returned by `ask_operator`: `{"operator_approved": b}`. -/
def askUpdate (b : Bool) : StateUpdate :=
  { StateUpdate.empty with operator_approved := some b }

/-- Result of running one node: a returned update, a propagated exception, or
a non-returning loop (script exhausted). -/
inductive StepRes where
  | ok (u : StateUpdate)
  | raised (e : String)
  | hang
deriving DecidableEq

/-- `WorkflowGenerator.generate_workflow`: chooses the prompt template by the
truthiness of `state.judgement_reason`, drives `_get_complete_answer`, and
returns `{"messages": [answer]}`.  `roleDetails` is the loaded template data
(`load_prompt("workflow_generator_prompt.yml")`), an external resource. -/
def generate_workflow (roleDetails : String) (script : List ClientResult)
    (s : State) : StepRes :=
  match getCompleteAnswer roleDetails s.query s.judgement_reason script with
  | (.done answer, _) => .ok (genUpdate answer)
  | (.raised e, _) => .raised e
  | (.hang, _) => .hang

/-- `WorkflowGenerator.check_workflow`: reads `state.messages[-1]` (an
`IndexError`, modelled as `none`, if the history is empty), obtains the
structured `Judgement` from the client (scripted), and stores its two fields
verbatim. -/
def check_workflow (j : Judgement) (s : State) : Option StateUpdate :=
  if s.messages.isEmpty then none else some (checkUpdate j)

/-- The `while True:` input loop of `ask_operator` over a script of console
lines: `'y'` (lowercased) returns approved `false`, `'n'` returns approved
`true`, anything else re-prompts; `none` when the script runs out. -/
def askLoop : List String → Option Bool
  | [] => none
  | l :: rest =>
    let r := pyLower l
    if r = "y" then some false
    else if r = "n" then some true
    else askLoop rest

/-- `ask_operator`: prints `state.messages[-1]` (an `IndexError`, modelled as
`none`, if the history is empty) then runs the input loop and returns
`{"operator_approved": b}`. -/
def ask_operator (lines : List String) (s : State) : Option StateUpdate :=
  if s.messages.isEmpty then none
  else
    match askLoop lines with
    | none => none
    | some b => some (askUpdate b)

/-- The three graph nodes added in `create_workflow_graph`. -/
inductive Node where
  | generating
  | checking
  | asking
deriving DecidableEq

/-- Scripts for the external collaborators of one run: one client-result
script per Generator call, one structured judgement per Validator call, and
one console-line script per OperatorGate call. -/
structure Env where
  genScripts : List (List ClientResult)
  judgements : List Judgement
  opInputs : List (List String)
deriving DecidableEq

/-- Result of executing the compiled graph: the final state at `END` together
with the number of Generator, Validator and OperatorGate node invocations;
or a propagated exception; or `stuck` when a collaborator script ran out
(the run would block or loop); or `outOfFuel`. -/
inductive RunResult where
  | finished (s : State) (gens checks asks : Nat)
  | raised (e : String)
  | stuck
  | outOfFuel
deriving DecidableEq

/-- Execution loop of the graph compiled by `create_workflow_graph`: entry
point `workflow_generator`, unconditional edge to `check`, conditional edge
on the merged state's `current_judge` to `END` or `ask_operator`, and
conditional edge on the merged state's `operator_approved` to `END` or back
to `workflow_generator`. -/
def runAux (rd : String) : Nat → Env → Node → State → Nat → Nat → Nat → RunResult
  | 0, _, _, _, _, _, _ => .outOfFuel
  | Nat.succ fuel, env, node, s, g, c, a =>
    match node with
    | .generating =>
      match env.genScripts with
      | [] => .stuck
      | script :: rest =>
        match generate_workflow rd script s with
        | .ok u => runAux rd fuel { env with genScripts := rest } .checking
            (applyUpdate s u) (g + 1) c a
        | .raised e => .raised e
        | .hang => .stuck
    | .checking =>
      match env.judgements with
      | [] => .stuck
      | j :: rest =>
        match check_workflow j s with
        | none => .stuck
        | some u =>
          let s' := applyUpdate s u
          if s'.current_judge then .finished s' g (c + 1) a
          else runAux rd fuel { env with judgements := rest } .asking s' g (c + 1) a
    | .asking =>
      match env.opInputs with
      | [] => .stuck
      | lines :: rest =>
        match ask_operator lines s with
        | none => .stuck
        | some u =>
          let s' := applyUpdate s u
          if s'.operator_approved then .finished s' g c (a + 1)
          else runAux rd fuel { env with opInputs := rest } .generating s' g c (a + 1)

/-- `workflow.invoke(initial_state)`: run from the entry point. -/
def runWorkflow (rd : String) (fuel : Nat) (env : Env) (s : State) : RunResult :=
  runAux rd fuel env .generating s 0 0 0

/-! ### Shape lemmas for the three node functions -/

theorem generate_shape {rd : String} {script : List ClientResult} {s : State}
    {u : StateUpdate} (h : generate_workflow rd script s = .ok u) :
    ∃ ans, u = genUpdate ans ∧
      (getCompleteAnswer rd s.query s.judgement_reason script).1 = GenOutcome.done ans := by
  unfold generate_workflow at h
  rcases hg : getCompleteAnswer rd s.query s.judgement_reason script with ⟨out, ps⟩
  rw [hg] at h
  cases out with
  | done ans =>
    cases h
    exact ⟨ans, rfl, rfl⟩
  | raised e => cases h
  | hang => cases h

theorem check_shape {j : Judgement} {s : State} {u : StateUpdate}
    (h : check_workflow j s = some u) : u = checkUpdate j ∧ s.messages ≠ [] := by
  unfold check_workflow at h
  by_cases he : s.messages.isEmpty
  · rw [if_pos he] at h; cases h
  · rw [if_neg he] at h
    cases h
    exact ⟨rfl, by simpa [List.isEmpty_iff] using he⟩

theorem ask_shape {lines : List String} {s : State} {u : StateUpdate}
    (h : ask_operator lines s = some u) :
    ∃ b, u = askUpdate b ∧ askLoop lines = some b ∧ s.messages ≠ [] := by
  unfold ask_operator at h
  by_cases he : s.messages.isEmpty
  · rw [if_pos he] at h; cases h
  · rw [if_neg he] at h
    cases hl : askLoop lines with
    | none => rw [hl] at h; cases h
    | some b =>
      rw [hl] at h
      cases h
      exact ⟨b, rfl, rfl, by simpa [List.isEmpty_iff] using he⟩

theorem applyUpdate_gen (s : State) (ans : String) :
    applyUpdate s (genUpdate ans) =
      { s with messages := s.messages ++ [ans] } := rfl

theorem applyUpdate_check (s : State) (j : Judgement) :
    applyUpdate s (checkUpdate j) =
      { s with messages := s.messages ++ []
               current_judge := j.judge
               judgement_reason := j.reason } := rfl

theorem applyUpdate_ask (s : State) (b : Bool) :
    applyUpdate s (askUpdate b) =
      { s with messages := s.messages ++ []
               operator_approved := b } := rfl

/-- Every payload issued by the `_get_complete_answer` loop is the same one:
the `answer` accumulator never changes before a call is issued, so every call
carries the same query (and, from the top level, `answer` is empty). -/
theorem payload_mem {rd q jr answer : String} :
    ∀ (script : List ClientResult) (p : InvokePayload),
      p ∈ (getCompleteAnswerAux rd q jr script answer).2 →
      p = mkPayload rd q answer jr
  | [], p, h => by simp [getCompleteAnswerAux] at h
  | r :: rest, p, h => by
    cases r with
    | ok t =>
      simp [getCompleteAnswerAux] at h
      exact h
    | exn e =>
      by_cases ht : isTruncation e
      · simp [getCompleteAnswerAux, ht] at h
        rcases h with h | h
        · exact h
        · exact payload_mem rest p h
      · simp [getCompleteAnswerAux, ht] at h
        exact h

/-- An exception raised out of `_get_complete_answer` is never a truncation
signal: truncation exceptions are consumed by the retry loop. -/
theorem raised_not_trunc {rd q jr : String} :
    ∀ (script : List ClientResult) (answer e : String),
      (getCompleteAnswerAux rd q jr script answer).1 = GenOutcome.raised e →
      isTruncation e = false
  | [], answer, e, h => by simp [getCompleteAnswerAux] at h
  | r :: rest, answer, e, h => by
    cases r with
    | ok t => simp [getCompleteAnswerAux] at h
    | exn m =>
      by_cases hm : isTruncation m
      · simp only [getCompleteAnswerAux, hm, if_pos] at h
        exact raised_not_trunc rest answer e h
      · simp [getCompleteAnswerAux, hm] at h
        rw [← h]
        simpa using hm

/-- A run of truncation exceptions at the head of the script is consumed one
call per entry, with the `answer` accumulator unchanged. -/
theorem aux_skip_trunc {rd q jr : String} (pre : List ClientResult) :
    (∀ r ∈ pre, ∃ m, r = ClientResult.exn m ∧ isTruncation m = true) →
    ∀ (tail : List ClientResult) (answer : String),
    (getCompleteAnswerAux rd q jr (pre ++ tail) answer).1 =
      (getCompleteAnswerAux rd q jr tail answer).1 ∧
    (getCompleteAnswerAux rd q jr (pre ++ tail) answer).2.length =
      pre.length + (getCompleteAnswerAux rd q jr tail answer).2.length := by
  induction pre with
  | nil => intro _ tail answer; simp
  | cons r pre' ih =>
    intro hpre tail answer
    obtain ⟨m, rfl, hm⟩ := hpre r (by simp)
    have ih' := ih (fun x hx => hpre x (by simp [hx])) tail answer
    refine ⟨?_, ?_⟩
    · have h1 := ih'.1
      simp only [List.cons_append]
      simp [getCompleteAnswerAux, hm]
      exact h1
    · have h2 := ih'.2
      simp only [List.cons_append]
      simp [getCompleteAnswerAux, hm]
      omega

/-! ### The state-machine invariant behind termination correctness -/

/-- In any finished run: if the machine entered the current node with
`operator_approved = false` (and, at `ask_operator`, with
`current_judge = false`), then the terminal state has exactly one of
`current_judge`, `operator_approved` set. -/
theorem runInv (fuel : Nat) :
    ∀ (rd : String) (env : Env) (node : Node) (s : State) (g c a : Nat)
      (s' : State) (g' c' a' : Nat),
      runAux rd fuel env node s g c a = .finished s' g' c' a' →
      s.operator_approved = false →
      (node = .asking → s.current_judge = false) →
      ((s'.current_judge = true ∧ s'.operator_approved = false) ∨
       (s'.current_judge = false ∧ s'.operator_approved = true)) := by
  induction fuel with
  | zero =>
    intro rd env node s g c a s' g' c' a' h _ _
    cases h
  | succ fuel ih =>
    intro rd env node s g c a s' g' c' a' h hop hjud
    cases node with
    | generating =>
      cases hs : env.genScripts with
      | nil => simp only [runAux, hs] at h; cases h
      | cons script rest =>
        simp only [runAux, hs] at h
        cases hgen : generate_workflow rd script s with
        | ok u =>
          simp only [hgen] at h
          obtain ⟨ans, rfl, -⟩ := generate_shape hgen
          exact ih rd _ .checking _ _ _ _ _ _ _ _ h
            (by simpa [applyUpdate_gen] using hop) (fun hh => nomatch hh)
        | raised e => simp only [hgen] at h; cases h
        | hang => simp only [hgen] at h; cases h
    | checking =>
      cases hs : env.judgements with
      | nil => simp only [runAux, hs] at h; cases h
      | cons j rest =>
        simp only [runAux, hs] at h
        cases hc : check_workflow j s with
        | none => simp only [hc] at h; cases h
        | some u =>
          obtain ⟨rfl, -⟩ := check_shape hc
          simp only [hc] at h
          by_cases hj : (applyUpdate s (checkUpdate j)).current_judge = true
          · rw [if_pos hj] at h
            cases h
            exact Or.inl ⟨hj, by simpa [applyUpdate_check] using hop⟩
          · rw [if_neg hj] at h
            exact ih rd _ .asking _ _ _ _ _ _ _ _ h
              (by simpa [applyUpdate_check] using hop)
              (fun _ => by simpa using hj)
    | asking =>
      cases hs : env.opInputs with
      | nil => simp only [runAux, hs] at h; cases h
      | cons lines rest =>
        simp only [runAux, hs] at h
        cases ha : ask_operator lines s with
        | none => simp only [ha] at h; cases h
        | some u =>
          obtain ⟨b, rfl, -, -⟩ := ask_shape ha
          simp only [ha] at h
          by_cases hb : (applyUpdate s (askUpdate b)).operator_approved = true
          · rw [if_pos hb] at h
            cases h
            exact Or.inr ⟨by simpa [applyUpdate_ask] using hjud rfl, hb⟩
          · rw [if_neg hb] at h
            exact ih rd _ .generating _ _ _ _ _ _ _ _ h
              (by simpa using hb) (fun hh => nomatch hh)

/-! ### Claim theorems -/

/-- C1: every run of the compiled state machine that starts with
`operator_approved = false` and reaches `END` terminates with exactly one of
`current_judge`, `operator_approved` true — never both false; moreover the
machine reaches `END` exactly when one of the flags is true at the branch
point: from the check node it finishes as soon as the stored verdict is
true, and from the operator node as soon as the operator approves. -/
theorem termination_exactly_one_flag (rd : String) (fuel : Nat) (env : Env)
    (s s' : State) (g c a g' c' a' : Nat)
    (h0 : s.operator_approved = false)
    (hrun : runAux rd fuel env .generating s g c a = .finished s' g' c' a') :
    ((s'.current_judge = true ∧ s'.operator_approved = false) ∨
     (s'.current_judge = false ∧ s'.operator_approved = true)) ∧
    ¬(s'.current_judge = false ∧ s'.operator_approved = false) ∧
    (∀ (f2 : Nat) (env2 : Env) (s2 : State) (g2 c2 a2 : Nat) (j : Judgement)
        (js : List Judgement),
      env2.judgements = j :: js → s2.messages ≠ [] → j.judge = true →
      runAux rd (f2 + 1) env2 .checking s2 g2 c2 a2 =
        .finished (applyUpdate s2 (checkUpdate j)) g2 (c2 + 1) a2) ∧
    (∀ (f2 : Nat) (env2 : Env) (s2 : State) (g2 c2 a2 : Nat) (line : String)
        (ls : List String) (rest : List (List String)),
      env2.opInputs = (line :: ls) :: rest → s2.messages ≠ [] →
      pyLower line = "n" →
      runAux rd (f2 + 1) env2 .asking s2 g2 c2 a2 =
        .finished (applyUpdate s2 (askUpdate true)) g2 c2 (a2 + 1)) := by
  have hx := runInv fuel rd env .generating s g c a s' g' c' a' hrun h0
    (fun hh => nomatch hh)
  refine ⟨hx, ?_, ?_, ?_⟩
  · rcases hx with ⟨h1, h2⟩ | ⟨h1, h2⟩ <;> simp [h1, h2]
  · intro f2 env2 s2 g2 c2 a2 j js hjs hmsg hj
    have hc : check_workflow j s2 = some (checkUpdate j) := by
      unfold check_workflow
      rw [if_neg (by simpa [List.isEmpty_iff] using hmsg)]
    simp only [runAux, hjs, hc]
    rw [if_pos (show (applyUpdate s2 (checkUpdate j)).current_judge = true by
      simpa [applyUpdate_check] using hj)]
  · intro f2 env2 s2 g2 c2 a2 line ls rest hin hmsg hline
    have ha : ask_operator (line :: ls) s2 = some (askUpdate true) := by
      unfold ask_operator
      rw [if_neg (by simpa [List.isEmpty_iff] using hmsg)]
      simp [askLoop, hline]
    simp only [runAux, hin, ha]
    rw [if_pos (show (applyUpdate s2 (askUpdate true)).operator_approved = true by
      simp [applyUpdate_ask])]

theorem termination_exactly_one_flag_witness :
    (((State.mk "q" ["d"] true "" false).current_judge = true ∧
      (State.mk "q" ["d"] true "" false).operator_approved = false) ∨
     ((State.mk "q" ["d"] true "" false).current_judge = false ∧
      (State.mk "q" ["d"] true "" false).operator_approved = true)) :=
  (termination_exactly_one_flag "RD" 5
    (Env.mk [[ClientResult.ok "d"]] [Judgement.mk "" true] [])
    (State.mk "q" [] false "" false) (State.mk "q" ["d"] true "" false)
    0 0 0 1 1 0 rfl (by decide)).1

/-- C2: the claimed resume-on-truncation accumulation is dead code.  A
truncation is an exception, which carries no partial text; `answer` is still
empty at every re-invocation, so the re-invocation query is unchanged (no
existing-answer block) and the returned text is only the final successful
response.  Evaluated here at N = 1: the first call raises a
"maximum context length" exception, the second returns "B"; the code issues
two calls with identical payloads and returns "B", not the concatenation
claimed by the spec. -/
theorem resume_protocol_dead :
    getCompleteAnswer "RD" "Q" ""
      [ClientResult.exn "maximum context length exceeded", ClientResult.ok "B"] =
    (GenOutcome.done "B",
     [InvokePayload.mk role "RD" "Q" "", InvokePayload.mk role "RD" "Q" ""]) := by
  decide

/-- C3: after a failed check whose stored reason is a non-empty string R and
an operator response, the merged state carries R, and every prompt rendered
by the next generation step ends with R (so contains it verbatim); and when
the stored reason is empty the rendered prompt is exactly the rule text
followed by the query — structurally different from the feedback template
rendered with an empty substitution. -/
theorem feedback_threading (rd R : String) (script : List ClientResult)
    (s : State) (j : Judgement) (u1 u2 : StateUpdate) (lines : List String)
    (hR : R ≠ "") (hreason : j.reason = R) (hjudge : j.judge = false)
    (hcheck : check_workflow j s = some u1)
    (hask : ask_operator lines (applyUpdate s u1) = some u2)
    (hdecl : (applyUpdate (applyUpdate s u1) u2).operator_approved = false) :
    (applyUpdate (applyUpdate s u1) u2).judgement_reason = R ∧
    (∀ p ∈ (getCompleteAnswer rd (applyUpdate (applyUpdate s u1) u2).query
        (applyUpdate (applyUpdate s u1) u2).judgement_reason script).2,
      ∃ a, renderGenPrompt p = a ++ R) ∧
    (∀ (ro rdX qX : String),
      renderGenPrompt (InvokePayload.mk ro rdX qX "") = rdX ++ qX ∧
      renderGenPrompt (InvokePayload.mk ro rdX qX "") ≠
        rdX ++ qX ++ feedbackBlock) := by
  obtain ⟨rfl, -⟩ := check_shape hcheck
  obtain ⟨b, rfl, -, -⟩ := ask_shape hask
  have hjr : (applyUpdate (applyUpdate s (checkUpdate j))
      (askUpdate b)).judgement_reason = R := by
    simp [applyUpdate, checkUpdate, askUpdate, StateUpdate.empty, hreason]
  refine ⟨hjr, ?_, ?_⟩
  · rw [hjr]
    intro p hp
    have hpm := payload_mem script p hp
    subst hpm
    refine ⟨rd ++ ((applyUpdate (applyUpdate s (checkUpdate j))
      (askUpdate b)).query ++ "") ++ feedbackBlock, ?_⟩
    simp only [renderGenPrompt, mkPayload]
    rw [if_neg hR]
    simp
  · intro ro rdX qX
    have h1 : renderGenPrompt (InvokePayload.mk ro rdX qX "") = rdX ++ qX := by
      simp [renderGenPrompt]
    refine ⟨h1, ?_⟩
    rw [h1]
    intro hbad
    have hlen := congrArg String.length hbad
    rw [String.length_append, String.length_append, String.length_append] at hlen
    have hfb : 0 < feedbackBlock.length := by decide
    omega

theorem feedback_threading_witness :
    (applyUpdate (applyUpdate (State.mk "q" ["m"] false "" false)
      (checkUpdate (Judgement.mk "missing" false)))
      (askUpdate false)).judgement_reason = "missing" :=
  (feedback_threading "RD" "missing" [ClientResult.ok "d"]
    (State.mk "q" ["m"] false "" false) (Judgement.mk "missing" false)
    (checkUpdate (Judgement.mk "missing" false)) (askUpdate false) ["y"]
    (by decide) rfl rfl rfl (by decide) rfl).1

/-- C4: the Validator step stores exactly the structured judge field into
current_judge and exactly the structured reason field into judgement_reason,
for every structured client response — the verdict is the structured field
itself, never derived from the reason text. -/
theorem verdict_fidelity (j : Judgement) (s : State) (u : StateUpdate)
    (h : check_workflow j s = some u) :
    u.current_judge = some j.judge ∧ u.judgement_reason = some j.reason ∧
    (applyUpdate s u).current_judge = j.judge ∧
    (applyUpdate s u).judgement_reason = j.reason := by
  obtain ⟨rfl, -⟩ := check_shape h
  exact ⟨rfl, rfl, rfl, rfl⟩

theorem verdict_fidelity_witness :
    (checkUpdate (Judgement.mk "looks wrong" false)).current_judge =
      some false ∧
    (checkUpdate (Judgement.mk "looks wrong" false)).judgement_reason =
      some "looks wrong" ∧
    (applyUpdate (State.mk "q" ["m"] false "" false)
      (checkUpdate (Judgement.mk "looks wrong" false))).current_judge = false ∧
    (applyUpdate (State.mk "q" ["m"] false "" false)
      (checkUpdate (Judgement.mk "looks wrong" false))).judgement_reason =
      "looks wrong" :=
  verdict_fidelity (Judgement.mk "looks wrong" false)
    (State.mk "q" ["m"] false "" false) (checkUpdate (Judgement.mk "looks wrong" false)) rfl

/-- C5: a successful generation step appends exactly one entry (the full
accumulated answer) to the history, and neither the check step nor the
operator step changes the history at all — history is append-only. -/
theorem history_append_only (rd : String) (script : List ClientResult)
    (s : State) (u : StateUpdate) (hg : generate_workflow rd script s = .ok u) :
    (∃ ans, (getCompleteAnswer rd s.query s.judgement_reason script).1 =
        GenOutcome.done ans ∧
      (applyUpdate s u).messages = s.messages ++ [ans]) ∧
    (∀ (j : Judgement) (s2 : State) (u2 : StateUpdate),
      check_workflow j s2 = some u2 →
      (applyUpdate s2 u2).messages = s2.messages) ∧
    (∀ (lines : List String) (s3 : State) (u3 : StateUpdate),
      ask_operator lines s3 = some u3 →
      (applyUpdate s3 u3).messages = s3.messages) := by
  refine ⟨?_, ?_, ?_⟩
  · obtain ⟨ans, rfl, hdone⟩ := generate_shape hg
    exact ⟨ans, hdone, by simp [applyUpdate_gen]⟩
  · intro j s2 u2 hc
    obtain ⟨rfl, -⟩ := check_shape hc
    simp [applyUpdate_check]
  · intro lines s3 u3 hask
    obtain ⟨b, rfl, -, -⟩ := ask_shape hask
    simp [applyUpdate_ask]

theorem history_append_only_witness :
    ∃ ans, (getCompleteAnswer "RD" (State.mk "q" [] false "" false).query
        (State.mk "q" [] false "" false).judgement_reason
        [ClientResult.ok "d"]).1 = GenOutcome.done ans ∧
      (applyUpdate (State.mk "q" [] false "" false)
        (genUpdate "d")).messages =
        (State.mk "q" [] false "" false).messages ++ [ans] :=
  (history_append_only "RD" [ClientResult.ok "d"]
    (State.mk "q" [] false "" false) (genUpdate "d") (by decide)).1

/-- C6 (amended): every client call of a generation step carries the fixed
role description only in the payload role field; the rendered prompt itself
is the loaded template text followed by the user query (plus the optional
feedback block) and does not include the role description. -/
theorem prompt_contains_rules_and_query (rd q jr : String)
    (script : List ClientResult) (p : InvokePayload)
    (hp : p ∈ (getCompleteAnswer rd q jr script).2) :
    p.role = role ∧ ∃ b, renderGenPrompt p = rd ++ q ++ b := by
  have hpm := payload_mem script p hp
  subst hpm
  refine ⟨rfl, ?_⟩
  by_cases hjr : jr = ""
  · refine ⟨"", ?_⟩
    simp [renderGenPrompt, mkPayload, hjr, String.append_empty]
  · refine ⟨feedbackBlock ++ jr, ?_⟩
    simp only [renderGenPrompt, mkPayload]
    rw [if_neg hjr]
    simp [String.append_empty, String.append_assoc]

theorem prompt_contains_rules_and_query_witness :
    (InvokePayload.mk role "RULES" "Q" "").role = role ∧
    ∃ b, renderGenPrompt (InvokePayload.mk role "RULES" "Q" "") =
      "RULES" ++ "Q" ++ b :=
  prompt_contains_rules_and_query "RULES" "Q" "" [ClientResult.ok "ans"]
    (InvokePayload.mk role "RULES" "Q" "") (by decide)

/-- C6 (counterexample): at a concrete generation call the produced payload
is exactly this one, and its rendered prompt does not contain the fixed role
description text anywhere — the claim that the rendered prompt contains the
role description is false. -/
theorem role_text_absent_from_prompt :
    (getCompleteAnswer "RULES" "Q" "" [ClientResult.ok "ans"]).2 =
      [InvokePayload.mk role "RULES" "Q" ""] ∧
    ¬ ∃ a b, renderGenPrompt (InvokePayload.mk role "RULES" "Q" "") =
      a ++ role ++ b := by
  refine ⟨by decide, ?_⟩
  rintro ⟨a, b, hab⟩
  have h1 : renderGenPrompt (InvokePayload.mk role "RULES" "Q" "") =
      "RULESQ" := by decide
  rw [h1] at hab
  have hlen := congrArg String.length hab
  rw [String.length_append, String.length_append] at hlen
  have h6 : ("RULESQ" : String).length = 6 := by decide
  have hr : role.length = 29 := by decide
  omega

/-- C7: truncation exceptions are consumed inside `_get_complete_answer`
(never surfaced — any exception that does surface is not a truncation) while
any other client failure propagates out unchanged, immediately after the run
of truncation retries, with no further retry; and after the truncation
retries a completing call returns normally. -/
theorem client_failure_propagation (rd q jr e : String)
    (pre rest : List ClientResult)
    (hpre : ∀ r ∈ pre, ∃ m, r = ClientResult.exn m ∧ isTruncation m = true)
    (he : isTruncation e = false) :
    (getCompleteAnswer rd q jr (pre ++ ClientResult.exn e :: rest)).1 =
      GenOutcome.raised e ∧
    (getCompleteAnswer rd q jr (pre ++ ClientResult.exn e :: rest)).2.length =
      pre.length + 1 ∧
    (∀ (script : List ClientResult) (e2 : String),
      (getCompleteAnswer rd q jr script).1 = GenOutcome.raised e2 →
      isTruncation e2 = false) ∧
    (∀ t : String,
      (getCompleteAnswer rd q jr (pre ++ [ClientResult.ok t])).1 =
        GenOutcome.done t) := by
  have hskip := @aux_skip_trunc rd q jr pre hpre (ClientResult.exn e :: rest) ""
  have hhead : (getCompleteAnswerAux rd q jr (ClientResult.exn e :: rest) "").1 =
      GenOutcome.raised e := by
    simp [getCompleteAnswerAux, he]
  have hheadlen :
      (getCompleteAnswerAux rd q jr (ClientResult.exn e :: rest) "").2.length = 1 := by
    simp [getCompleteAnswerAux, he]
  refine ⟨?_, ?_, ?_, ?_⟩
  · unfold getCompleteAnswer
    rw [hskip.1, hhead]
  · unfold getCompleteAnswer
    rw [hskip.2, hheadlen]
  · intro script e2 h
    exact raised_not_trunc script "" e2 h
  · intro t
    have hskip2 := @aux_skip_trunc rd q jr pre hpre [ClientResult.ok t] ""
    unfold getCompleteAnswer
    rw [hskip2.1]
    simp [getCompleteAnswerAux, String.empty_append]

theorem client_failure_propagation_witness :
    (getCompleteAnswer "RD" "Q" ""
      ([ClientResult.exn "maximum context length"] ++
        ClientResult.exn "rate limit" :: [])).1 = GenOutcome.raised "rate limit" ∧
    (getCompleteAnswer "RD" "Q" ""
      ([ClientResult.exn "maximum context length"] ++
        ClientResult.exn "rate limit" :: [])).2.length = 1 + 1 :=
  ⟨(client_failure_propagation "RD" "Q" "" "rate limit"
      [ClientResult.exn "maximum context length"] []
      (by
        intro r hr
        simp only [List.mem_singleton] at hr
        exact ⟨"maximum context length", hr, by decide⟩)
      (by decide)).1,
   (client_failure_propagation "RD" "Q" "" "rate limit"
      [ClientResult.exn "maximum context length"] []
      (by
        intro r hr
        simp only [List.mem_singleton] at hr
        exact ⟨"maximum context length", hr, by decide⟩)
      (by decide)).2.1⟩

/-- C8: the operator gate recognizes exactly the two tokens y and n,
case-insensitively: a y answer returns operator_approved false, an n answer
returns operator_approved true, and any other console line is skipped — the
gate behaves on the remaining input exactly as if the invalid line had never
been entered, with no state change and no error. -/
theorem operator_gate_tokens (line : String) (rest : List String) (s : State)
    (hmsg : s.messages ≠ []) :
    (pyLower line = "y" →
      ask_operator (line :: rest) s = some (askUpdate false)) ∧
    (pyLower line = "n" →
      ask_operator (line :: rest) s = some (askUpdate true)) ∧
    (pyLower line ≠ "y" → pyLower line ≠ "n" →
      ask_operator (line :: rest) s = ask_operator rest s) := by
  have hne : ¬s.messages.isEmpty := by simpa [List.isEmpty_iff] using hmsg
  refine ⟨?_, ?_, ?_⟩
  · intro hy
    unfold ask_operator
    rw [if_neg hne]
    simp [askLoop, hy]
  · intro hn
    unfold ask_operator
    rw [if_neg hne]
    simp [askLoop, hn]
  · intro hy hn
    unfold ask_operator
    rw [if_neg hne, if_neg hne]
    have hskip : askLoop (line :: rest) = askLoop rest := by
      simp [askLoop, hy, hn]
    rw [hskip]

theorem operator_gate_tokens_witness :
    ask_operator ("Y" :: ["maybe"]) (State.mk "q" ["m"] false "" false) =
      some (askUpdate false) :=
  (operator_gate_tokens "Y" ["maybe"] (State.mk "q" ["m"] false "" false)
    (by decide)).1 (by decide)

/-- C9: with a validation client that always answers judge false with reason
"missing step 2" and an operator who types the regenerate token twice and
then the accept token, the compiled graph invokes the Generator, the
Validator and the OperatorGate exactly three times each and halts with
operator_approved true and current_judge false. -/
theorem scenario_three_iterations :
    runWorkflow "RULES" 20
      (Env.mk
        [[ClientResult.ok "doc1"], [ClientResult.ok "doc2"],
          [ClientResult.ok "doc3"]]
        [Judgement.mk "missing step 2" false, Judgement.mk "missing step 2" false,
          Judgement.mk "missing step 2" false]
        [["y"], ["y"], ["n"]])
      (State.mk "recipe article workflow" [] false "" false) =
    RunResult.finished
      (State.mk "recipe article workflow" ["doc1", "doc2", "doc3"] false
        "missing step 2" true) 3 3 3 := by
  decide

/-- C10: each step's returned update dict contains only its own keys — the
generation step only messages, the check step only current_judge and
judgement_reason, the operator step only operator_approved — and merging it
leaves every other field of the state unchanged. -/
theorem step_frame_conditions (rd : String) (script : List ClientResult)
    (s : State) (u : StateUpdate) (hg : generate_workflow rd script s = .ok u) :
    (u.query = none ∧ u.current_judge = none ∧ u.judgement_reason = none ∧
      u.operator_approved = none ∧ (∃ ans, u.messages = some [ans]) ∧
      (applyUpdate s u).query = s.query ∧
      (applyUpdate s u).current_judge = s.current_judge ∧
      (applyUpdate s u).judgement_reason = s.judgement_reason ∧
      (applyUpdate s u).operator_approved = s.operator_approved) ∧
    (∀ (j : Judgement) (s2 : State) (u2 : StateUpdate),
      check_workflow j s2 = some u2 →
      u2.query = none ∧ u2.messages = none ∧ u2.operator_approved = none ∧
      (applyUpdate s2 u2).query = s2.query ∧
      (applyUpdate s2 u2).messages = s2.messages ∧
      (applyUpdate s2 u2).operator_approved = s2.operator_approved) ∧
    (∀ (lines : List String) (s3 : State) (u3 : StateUpdate),
      ask_operator lines s3 = some u3 →
      u3.query = none ∧ u3.messages = none ∧ u3.current_judge = none ∧
      u3.judgement_reason = none ∧
      (applyUpdate s3 u3).query = s3.query ∧
      (applyUpdate s3 u3).messages = s3.messages ∧
      (applyUpdate s3 u3).current_judge = s3.current_judge ∧
      (applyUpdate s3 u3).judgement_reason = s3.judgement_reason) := by
  refine ⟨?_, ?_, ?_⟩
  · obtain ⟨ans, rfl, -⟩ := generate_shape hg
    exact ⟨rfl, rfl, rfl, rfl, ⟨ans, rfl⟩, rfl, rfl, rfl, rfl⟩
  · intro j s2 u2 hc
    obtain ⟨rfl, -⟩ := check_shape hc
    exact ⟨rfl, rfl, rfl, rfl, by simp [applyUpdate_check], rfl⟩
  · intro lines s3 u3 hask
    obtain ⟨b, rfl, -, -⟩ := ask_shape hask
    exact ⟨rfl, rfl, rfl, rfl, rfl, by simp [applyUpdate_ask], rfl, rfl⟩

theorem step_frame_conditions_witness :
    (genUpdate "d").query = none ∧ (genUpdate "d").current_judge = none ∧
    (genUpdate "d").judgement_reason = none ∧
    (genUpdate "d").operator_approved = none ∧
    (∃ ans, (genUpdate "d").messages = some [ans]) ∧
    (applyUpdate (State.mk "q" [] false "" false) (genUpdate "d")).query =
      (State.mk "q" [] false "" false).query ∧
    (applyUpdate (State.mk "q" [] false "" false) (genUpdate "d")).current_judge =
      (State.mk "q" [] false "" false).current_judge ∧
    (applyUpdate (State.mk "q" [] false "" false) (genUpdate "d")).judgement_reason =
      (State.mk "q" [] false "" false).judgement_reason ∧
    (applyUpdate (State.mk "q" [] false "" false) (genUpdate "d")).operator_approved =
      (State.mk "q" [] false "" false).operator_approved :=
  (step_frame_conditions "RD" [ClientResult.ok "d"]
    (State.mk "q" [] false "" false) (genUpdate "d") (by decide)).1

end Dify
